import Mathlib

/-
Verification development for the Medicare call-appointment service.

The definitions below are a shallow embedding of the conversation turn
handler (src/api/routes.py), the model-assisted extraction reconciliation
(src/services/llm/__init__.py) and the database service
(src/services/database/__init__.py).  Transcripts and stored strings are
modelled as lists of characters; Python regular-expression search is
modelled by a small backtracking engine with Python semantics (leftmost
start position, ordered alternation, greedy and lazy repetition), and the
exact patterns of the source are transcribed as abstract syntax trees.
External effects (database queries, the language-model backend) are
modelled as explicit inputs; a failing query or backend call is the `none`
case of an `Option`.
-/

set_option maxRecDepth 4000

/- ## Basic character and string utilities (ASCII, as used by the source) -/

/-- Characters of a string literal. -/
def tl (s : String) : List Char := s.toList

/-- The apostrophe character (written via its code point). -/
def apos : Char := Char.ofNat 39

/-- Python `str.lower` for ASCII letters. -/
def toLowerA (c : Char) : Char :=
  if 'A' ≤ c ∧ c ≤ 'Z' then Char.ofNat (c.toNat + 32) else c

/-- Python `str.upper` for ASCII letters. -/
def toUpperA (c : Char) : Char :=
  if 'a' ≤ c ∧ c ≤ 'z' then Char.ofNat (c.toNat - 32) else c

/-- Lower-case an ASCII string (Python `s.lower()`). -/
def lowerAscii (s : List Char) : List Char := s.map toLowerA

/-- Python whitespace class `\s` restricted to ASCII. -/
def isSpaceA (c : Char) : Bool :=
  c = ' ' ∨ c = '\t' ∨ c = '\n' ∨ c = '\r' ∨ c = Char.ofNat 11 ∨ c = Char.ofNat 12

/-- Decimal digit class `\d` restricted to ASCII. -/
def isDigitA (c : Char) : Bool := '0' ≤ c ∧ c ≤ '9'

/-- ASCII letter (class `[A-Za-z]`, Python `str.isalpha` on ASCII input). -/
def isAlphaA (c : Char) : Bool := ('a' ≤ c ∧ c ≤ 'z') ∨ ('A' ≤ c ∧ c ≤ 'Z')

/-- Lower-case ASCII letter (class `[a-z]`). -/
def isLowerAlphaA (c : Char) : Bool := 'a' ≤ c ∧ c ≤ 'z'

/-- Class `[A-Za-z\s]` used by the name patterns. -/
def isAlphaSpaceA (c : Char) : Bool := isAlphaA c ∨ isSpaceA c

/-- Class matching a slash or a dash, used by the numeric date patterns. -/
def isSlashDash (c : Char) : Bool := c = '/' ∨ c = '-'

/-- Class `.` of Python regular expressions: any character but a newline. -/
def isNotNl (c : Char) : Bool := ¬ (c = '\n')

/-- Does `p` occur as a prefix of `s`? -/
def startsWith : List Char → List Char → Bool
  | [], _ => true
  | _ :: _, [] => false
  | a :: as, b :: bs => a = b ∧ startsWith as bs

/-- Python substring containment (`needle in hay`). -/
def isSubstr : List Char → List Char → Bool
  | n, [] => n.isEmpty
  | n, c :: rest => startsWith n (c :: rest) ∨ isSubstr n rest

/-- Python `str.strip()` (trim surrounding whitespace). -/
def strip (s : List Char) : List Char :=
  ((s.dropWhile isSpaceA).reverse.dropWhile isSpaceA).reverse

/-- Helper for `splitWs`: accumulate the current word (reversed). -/
def splitWsAux : List Char → List Char → List (List Char)
  | [], acc => if acc.isEmpty then [] else [acc.reverse]
  | c :: rest, acc =>
    if isSpaceA c then
      if acc.isEmpty then splitWsAux rest [] else acc.reverse :: splitWsAux rest []
    else splitWsAux rest (c :: acc)

/-- Python `str.split()`: split on whitespace runs, discarding empties. -/
def splitWs (s : List Char) : List (List Char) := splitWsAux s []

/-- Join words with a single space (the Python join on a space). -/
def joinSpace : List (List Char) → List Char
  | [] => []
  | [w] => w
  | w :: ws => w ++ ' ' :: joinSpace ws

/-- Join words with a comma and space (the Python join on a comma). -/
def joinCommaSpace : List (List Char) → List Char
  | [] => []
  | [w] => w
  | w :: ws => w ++ tl ", " ++ joinCommaSpace ws

/-- Helper for `titleAscii`: the flag records whether the previous character
was a letter. -/
def titleAux : Bool → List Char → List Char
  | _, [] => []
  | prev, c :: rest =>
    if isAlphaA c then (if prev then toLowerA c else toUpperA c) :: titleAux true rest
    else c :: titleAux false rest

/-- Python `str.title()` on ASCII text: the first letter of each run of
letters is upper-cased and the following letters are lower-cased. -/
def titleAscii (s : List Char) : List Char := titleAux false s

/-- Python `str.capitalize()`: first character upper-cased, rest lower-cased. -/
def capFirst : List Char → List Char
  | [] => []
  | c :: rest => toUpperA c :: lowerAscii rest

/-- Fuel-driven core of `replaceAll`; the fuel bounds the input length. -/
def replaceAllF : Nat → List Char → List Char → List Char → List Char
  | 0, _, _, s => s
  | fuel + 1, old, rep, s =>
    match s with
    | [] => []
    | c :: rest =>
      if (¬ old.isEmpty) ∧ startsWith old (c :: rest) then
        rep ++ replaceAllF fuel old rep (List.drop old.length (c :: rest))
      else c :: replaceAllF fuel old rep rest

/-- Python `str.replace(old, rep)` for a non-empty `old`: replace all
non-overlapping occurrences, scanning left to right. -/
def replaceAll (old rep s : List Char) : List Char := replaceAllF s.length old rep s

/-- Decimal digits of a natural number (Python `str(n)` for `n ≥ 0`). -/
def natRepr (n : Nat) : List Char := Nat.toDigits 10 n

/-- Decimal representation of an integer (Python `str(i)`). -/
def intRepr (i : Int) : List Char :=
  if i < 0 then '-' :: natRepr i.natAbs else natRepr i.natAbs

/-- Python `int(s)` on a string of decimal digits. -/
def digitsToNat (ds : List Char) : Nat :=
  ds.foldl (fun a c => a * 10 + (c.toNat - 48)) 0

/-- First `some` in a list of options (first regex template that fires). -/
def firstSome : List (Option α) → Option α
  | [] => none
  | o :: os => match o with
    | some a => some a
    | none => firstSome os

/- ## A small regex engine with Python `re.search` semantics

Only the constructs appearing in the source patterns are supported:
literals, single-character classes, ordered alternation, concatenation,
greedy/lazy repetition of a character class, one capture group, and the
end-of-string anchor.  Matching is backtracking, so alternation prefers
the left alternative and greedy (lazy) repetition prefers the longest
(shortest) count, exactly as in Python. -/

inductive RE where
  | eps : RE
  | lit : List Char → RE
  | cls : (Char → Bool) → RE
  | alt : RE → RE → RE
  | cat : RE → RE → RE
  | reps : (Char → Bool) → Nat → Option Nat → Bool → RE
  | grp : RE → RE
  | eos : RE

/-- Length of the maximal prefix of `s` whose characters satisfy `p`. -/
def runLen (p : Char → Bool) : List Char → Nat
  | [] => 0
  | c :: rest => if p c then runLen p rest + 1 else 0

/-- Candidate repetition counts between `mn` and `min mx run`, ordered by
preference: descending for greedy repetition, ascending for lazy. -/
def repsCounts (mn : Nat) (mx : Option Nat) (run : Nat) (greedy : Bool) : List Nat :=
  let hi := match mx with
    | none => run
    | some m => min m run
  if mn > hi then []
  else
    let base := (List.range (hi + 1 - mn)).map (fun i => mn + i)
    if greedy then base.reverse else base

/-- Try each repetition count in order, resuming the continuation. -/
def tryCounts : List Nat → List Char → Option (List Char) →
    (List Char → Option (List Char) → Option (List Char)) → Option (List Char)
  | [], _, _, _ => none
  | n :: ns, s, cap, k =>
    match k (s.drop n) cap with
    | some res => some res
    | none => tryCounts ns s cap k

/-- Backtracking matcher.  `reMatch r s cap k` matches `r` against a prefix
of `s`, threading the capture of the (single) group, and runs the
continuation `k` on the remainder. -/
def reMatch : RE → List Char → Option (List Char) →
    (List Char → Option (List Char) → Option (List Char)) → Option (List Char)
  | RE.eps, s, cap, k => k s cap
  | RE.lit ls, s, cap, k => if startsWith ls s then k (s.drop ls.length) cap else none
  | RE.cls p, s, cap, k =>
    match s with
    | [] => none
    | c :: rest => if p c then k rest cap else none
  | RE.alt r1 r2, s, cap, k =>
    match reMatch r1 s cap k with
    | some res => some res
    | none => reMatch r2 s cap k
  | RE.cat r1 r2, s, cap, k =>
    reMatch r1 s cap (fun s2 cap2 => reMatch r2 s2 cap2 k)
  | RE.reps p mn mx greedy, s, cap, k =>
    tryCounts (repsCounts mn mx (runLen p s) greedy) s cap k
  | RE.grp r, s, cap, k =>
    reMatch r s cap (fun s2 _ => k s2 (some (s.take (s.length - s2.length))))
  | RE.eos, s, cap, k => if s.isEmpty then k s cap else none

/-- Python `re.search(r, s)` returning `match.group(1)`: try every start
position from the left; at the first position where the pattern matches,
return the text consumed by the capture group. -/
def reSearch (r : RE) : List Char → Option (List Char)
  | [] => reMatch r [] none (fun _ cap => some (cap.getD []))
  | c :: rest =>
    match reMatch r (c :: rest) none (fun _ cap => some (cap.getD [])) with
    | some cp => some cp
    | none => reSearch r rest

/-- Capture of the first pattern in an ordered list that matches. -/
def firstCapture (ps : List RE) (s : List Char) : Option (List Char) :=
  firstSome (ps.map (fun p => reSearch p s))

/- Pattern-building helpers. -/

/-- Concatenate a list of regexes. -/
def rcat (rs : List RE) : RE := rs.foldr RE.cat RE.eps

/-- Ordered alternation of a list of regexes. -/
def ralt : List RE → RE
  | [] => RE.cls (fun _ => false)
  | [r] => r
  | r :: rs => RE.alt r (ralt rs)

/-- Literal from a string. -/
def rlit (s : String) : RE := RE.lit s.toList

/-- Greedy optional (`?`). -/
def ropt (r : RE) : RE := RE.alt r RE.eps

/-- Greedy `+` over a character class. -/
def rplus (p : Char → Bool) : RE := RE.reps p 1 none true

/-- Lazy `+?` over a character class. -/
def rlazyplus (p : Char → Bool) : RE := RE.reps p 1 none false

/-- Greedy `*` over a character class. -/
def rstar (p : Char → Bool) : RE := RE.reps p 0 none true

/-- Greedy bounded repetition `{m,n}` over a character class. -/
def rbound (p : Char → Bool) (m n : Nat) : RE := RE.reps p m (some n) true

/- ## The patterns of the deterministic extractor (src/api/routes.py)

Each definition transcribes one Python pattern literally, in the order the
source tries them. -/

/-- Name pattern 1 of the source. -/
def namePat1 : RE :=
  rcat [ralt [rlit "my name is", rlit "this is", rlit "i am",
              RE.lit ('i' :: apos :: ['m']), rlit "name is"],
        rlit " ", RE.grp (rplus isAlphaSpaceA)]

/-- Name pattern 2 of the source. -/
def namePat2 : RE := rcat [RE.grp (rplus isAlphaSpaceA), rlit " ", rlit "is my name"]

/-- Name pattern 3 of the source. -/
def namePat3 : RE :=
  rcat [rlit "patient", ropt (RE.lit (apos :: ['s'])), rlit " name ",
        ropt (rlit "is"), rlit " ", RE.grp (rplus isAlphaSpaceA)]

/-- The ordered name templates. -/
def namePatterns : List RE := [namePat1, namePat2, namePat3]

/-- Hospital-id pattern 1 of the source. -/
def hospPat1 : RE :=
  rcat [rlit "hospital ", ropt (ralt [rlit "id", rlit "ID", rlit "number", rlit "#"]),
        rstar isSpaceA, ropt (rlit "is"), rstar isSpaceA, RE.grp (rplus isDigitA)]

/-- Hospital-id pattern 2 of the source. -/
def hospPat2 : RE :=
  rcat [rlit "hospital", ropt (ralt [rlit "id", rlit "ID"]), rlit " ",
        RE.grp (rplus isDigitA)]

/-- Hospital-id pattern 3 of the source. -/
def hospPat3 : RE :=
  rcat [ralt [rlit "id", rlit "ID", rlit "number"], rlit " ", RE.grp (rplus isDigitA)]

/-- Hospital-id pattern 4 of the source. -/
def hospPat4 : RE := rcat [rlit "hospital ", RE.grp (rplus isDigitA)]

/-- Hospital-id pattern 5 of the source. -/
def hospPat5 : RE := rcat [rlit "the number ", RE.grp (rplus isDigitA)]

/-- The ordered hospital-id templates. -/
def hospitalPatterns : List RE := [hospPat1, hospPat2, hospPat3, hospPat4, hospPat5]

/-- Body of an ISO-style date (`20dd-d{1,2}-d{1,2}`). -/
def isoDateBody : RE :=
  rcat [rlit "20", rbound isDigitA 2 2, rlit "-", rbound isDigitA 1 2,
        rlit "-", rbound isDigitA 1 2]

/-- Body of a slash-or-dash numeric date. -/
def numDateBody : RE :=
  rcat [rbound isDigitA 1 2, RE.cls isSlashDash, rbound isDigitA 1 2,
        RE.cls isSlashDash, rlit "20", rbound isDigitA 2 2]

/-- Body of a month-name date. -/
def monthDateBody : RE :=
  rcat [rplus isLowerAlphaA, rlit " ", rbound isDigitA 1 2,
        ropt (ralt [rlit "st", rlit "nd", rlit "rd", rlit "th"]), ropt (rlit ","),
        rlit " ", rlit "20", rbound isDigitA 2 2]

/-- Date pattern 1 of the source. -/
def datePat1 : RE :=
  rcat [rlit "date ", ropt (ralt [rlit "is", rlit "of"]), rlit " ", RE.grp isoDateBody]

/-- Date pattern 2 of the source. -/
def datePat2 : RE := RE.grp isoDateBody

/-- Date pattern 3 of the source. -/
def datePat3 : RE :=
  rcat [rlit "date ", ropt (ralt [rlit "is", rlit "of"]), rlit " ", RE.grp numDateBody]

/-- Date pattern 4 of the source. -/
def datePat4 : RE := RE.grp numDateBody

/-- Date pattern 5 of the source. -/
def datePat5 : RE :=
  rcat [rlit "date ", ropt (ralt [rlit "is", rlit "for", rlit "on"]), rlit " ",
        RE.grp monthDateBody]

/-- Date pattern 6 of the source. -/
def datePat6 : RE := rcat [rlit "on ", RE.grp monthDateBody]

/-- The ordered date templates. -/
def datePatterns : List RE :=
  [datePat1, datePat2, datePat3, datePat4, datePat5, datePat6]

/-- Body of an am/pm clock time. -/
def ampmTimeBody : RE :=
  rcat [rbound isDigitA 1 2, ropt (rcat [rlit ":", rbound isDigitA 2 2]),
        rstar isSpaceA, ralt [rlit "am", rlit "pm"]]

/-- Body of a "in the morning/afternoon/evening" time. -/
def wordsTimeBody : RE :=
  rcat [rbound isDigitA 1 2, ropt (rcat [rlit ":", rbound isDigitA 2 2]),
        rstar isSpaceA,
        ralt [rlit "in the morning", rlit "in the afternoon", rlit "in the evening"]]

/-- Time pattern 1 of the source. -/
def timePat1 : RE :=
  rcat [rlit "time ", ropt (ralt [rlit "is", rlit "at"]), rlit " ", RE.grp ampmTimeBody]

/-- Time pattern 2 of the source. -/
def timePat2 : RE := RE.grp ampmTimeBody

/-- Time pattern 3 of the source. -/
def timePat3 : RE := rcat [rlit "at ", RE.grp ampmTimeBody]

/-- Time pattern 4 of the source. -/
def timePat4 : RE :=
  rcat [rlit "time ", ropt (ralt [rlit "is", rlit "at"]), rlit " ", RE.grp wordsTimeBody]

/-- Time pattern 5 of the source. -/
def timePat5 : RE :=
  rcat [RE.grp (rbound isDigitA 1 2), rlit " ",
        ralt [RE.lit ('o' :: apos :: tl "clock"), rlit "oclock"]]

/-- The ordered time templates. -/
def timePatterns : List RE := [timePat1, timePat2, timePat3, timePat4, timePat5]

/-- Terminator of a captured symptom span: a period, end of string, or one
of the words "date", "time", "hospital". -/
def symTerm : RE := ralt [rlit ".", RE.eos, rlit "date", rlit "time", rlit "hospital"]

/-- Symptom pattern 1 of the source. -/
def symPat1 : RE :=
  rcat [rlit "symptom", ropt (rlit "s"), rlit " ", ralt [rlit "is", rlit "are"],
        rlit " ", RE.grp (rlazyplus isNotNl), symTerm]

/-- Symptom pattern 2 of the source. -/
def symPat2 : RE :=
  rcat [rlit "problem", ropt (rlit "s"), rlit " ", ralt [rlit "is", rlit "are"],
        rlit " ", RE.grp (rlazyplus isNotNl), symTerm]

/-- Symptom pattern 3 of the source. -/
def symPat3 : RE := rcat [rlit "suffering from ", RE.grp (rlazyplus isNotNl), symTerm]

/-- Symptom pattern 4 of the source. -/
def symPat4 : RE :=
  rcat [rlit "reason ", ralt [rlit "is", rlit "for"], rlit " ",
        RE.grp (rlazyplus isNotNl), symTerm]

/-- Symptom pattern 5 of the source. -/
def symPat5 : RE :=
  rcat [rlit "issue ", ralt [rlit "is", rlit "with"], rlit " ",
        RE.grp (rlazyplus isNotNl), symTerm]

/-- Symptom pattern 6 of the source. -/
def symPat6 : RE := rcat [rlit "appointment for ", RE.grp (rlazyplus isNotNl), symTerm]

/-- Symptom pattern 7 of the source. -/
def symPat7 : RE :=
  rcat [rlit "i have ", ralt [rlit "a", rlit "an"], rlit " ",
        RE.grp (rlazyplus isNotNl), symTerm]

/-- The ordered symptom templates. -/
def symptomPatterns : List RE :=
  [symPat1, symPat2, symPat3, symPat4, symPat5, symPat6, symPat7]

/-- Trigger substrings that enable symptom-template matching. -/
def symptomTriggers : List (List Char) :=
  [tl "symptom", tl "problem", tl "issue", tl "reason", tl "suffering",
   tl "pain", tl "appointment for"]

/-- The fixed stop-word list removed from a captured name span. -/
def nameStopWords : List (List Char) :=
  [tl "calling", tl "here", tl "speaking", tl "and", tl "the", tl "to",
   tl "for", tl "with", tl "hospital", tl "id", tl "symptoms", tl "date", tl "time"]

/-- Keywords that block the short-utterance name fallback. -/
def nameFallbackKeywords : List (List Char) :=
  [tl "hospital", tl "symptom", tl "date", tl "time", tl "appointment", tl "book"]

/-- Filler phrases stripped by the residual-symptoms heuristic. -/
def commonPhrases : List (List Char) :=
  [tl "my name is", tl "this is", tl "i am", 'i' :: apos :: ['m'], tl "name is",
   tl "hospital id", tl "date is", tl "time is", tl "i need", tl "i want",
   tl "to book", tl "an appointment", tl "appointment for"]

/- ## Deterministic field extraction (src/api/routes.py, `conversation`) -/

/-- Stop-word cleaning of a captured name span: split on whitespace and
drop the words of the fixed stop-word list. -/
def cleanName (raw : List Char) : List (List Char) :=
  (splitWs raw).filter (fun w => decide (w ∉ nameStopWords))

/-- What one name template produces from its captured span: `none` when the
stop-word filter removes every word, otherwise the title-cased remainder. -/
def templateName (c : List Char) : Option (List Char) :=
  let ws := cleanName (strip c)
  if ws.isEmpty then none else some (titleAscii (joinSpace ws))

/-- Name produced by the ordered templates: the first template whose match
survives stop-word cleaning. -/
def extractNameTemplates (low : List Char) : Option (List Char) :=
  firstSome (namePatterns.map (fun p => (reSearch p low).bind templateName))

/-- Captured span of the first name template that matches at all (whether
or not the cleaned result is empty). -/
def firstTemplateCapture (low : List Char) : Option (List Char) :=
  firstCapture namePatterns low

/-- Full deterministic name extraction, template chain plus the
short-utterance fallback of the source. -/
def detPatient (speech : List Char) : Option (List Char) :=
  let low := lowerAscii speech
  match extractNameTemplates low with
  | some n => some n
  | none =>
    let ws := splitWs low
    if (splitWs low).length ≤ 4 ∧ (ws.all (fun w => w.all isAlphaA)) = true ∧
       (nameFallbackKeywords.any (fun kw => isSubstr kw low)) = false
    then some (titleAscii (strip speech))
    else none

/- ## The appointment draft and the model-assisted merge -/

/-- The accumulating appointment record of one call
(`appointment_data` in src/api/routes.py).  `none` models a key that is
absent from the Python dictionary. -/
structure Draft where
  patient : Option (List Char)
  symptoms : Option (List Char)
  date : Option (List Char)
  time : Option (List Char)
  hospital_id : Option Int
  phone : Option (List Char)
deriving DecidableEq, Repr

/-- Result of `LLMService.extract_appointment_data` as consumed by the
merge loop: one optional candidate per required field (the fixed
latitude/longitude/alert defaults play no role in the merge rules). -/
structure LLMOut where
  patient : Option (List Char)
  symptoms : Option (List Char)
  date : Option (List Char)
  time : Option (List Char)
  hospital_id : Option Int
deriving DecidableEq, Repr

/-- The empty model-assisted result (extraction failed or found nothing). -/
def emptyLLM : LLMOut := ⟨none, none, none, none, none⟩

/-- Merge rule of the source for the patient field (src/api/routes.py,
lines 284-292): skip empty candidates, skip the literal texts "null",
"NULL", "None", otherwise overwrite when the draft has no usable name or
the candidate is strictly longer. -/
def mergePatient (cur cand : Option (List Char)) : Option (List Char) :=
  match cand with
  | none => cur
  | some v =>
    if v.isEmpty then cur
    else if v = tl "null" ∨ v = tl "NULL" ∨ v = tl "None" then cur
    else match cur with
      | none => some v
      | some c =>
        if c.isEmpty = true ∨ c = tl "null" ∨ c.length < v.length then some v
        else some c

/-- Merge rule of the source for the string fields symptoms/date/time
(src/api/routes.py, lines 293-298): overwrite only a missing or empty
value. -/
def mergeOther (cur cand : Option (List Char)) : Option (List Char) :=
  match cand with
  | none => cur
  | some v =>
    if v.isEmpty then cur
    else match cur with
      | none => some v
      | some c => if c.isEmpty then some v else some c

/-- Merge rule of the source for the integer hospital id: overwrite only a
missing or falsy (zero) value. -/
def mergeId (cur cand : Option Int) : Option Int :=
  match cand with
  | none => cur
  | some v =>
    match cur with
    | none => some v
    | some c => if c = 0 then some v else some c

/-- The model-assisted merge applied to a draft
(the `for key, value in extracted_data.items()` loop of the source). -/
def mergeLLM (d : Draft) (u : LLMOut) : Draft :=
  Draft.mk (mergePatient d.patient u.patient) (mergeOther d.symptoms u.symptoms)
    (mergeOther d.date u.date) (mergeOther d.time u.time)
    (mergeId d.hospital_id u.hospital_id) d.phone

/-- Residual-text symptoms heuristic of the source (src/api/routes.py,
lines 247-273), executed when no symptom template fired but name,
hospital id, date and time are all present. -/
def residualStep (d : Draft) (low : List Char) : Draft :=
  let hidStr := intRepr (d.hospital_id.getD 0)
  let toRemove :=
    splitWs (lowerAscii (d.patient.getD []))
    ++ [tl "hospital " ++ hidStr, tl "hospital id " ++ hidStr]
    ++ [lowerAscii (d.date.getD [])]
    ++ [lowerAscii (d.time.getD [])]
    ++ commonPhrases
  let remaining := toRemove.foldl (fun acc ph => replaceAll ph (tl " ") acc) low
  let remaining2 := joinSpace (splitWs remaining)
  if remaining2.length > 3 then
    Draft.mk d.patient (some (capFirst remaining2)) d.date d.time d.hospital_id d.phone
  else d

/-- Extraction pipeline of one conversation turn (src/api/routes.py,
lines 128-298): phone default, deterministic captures (which assign the
field unconditionally), then the model-assisted merge. -/
def processTurn (d0 : Draft) (speech recipient : List Char) (u : LLMOut) : Draft :=
  let low := lowerAscii speech
  let d1 := if d0.phone.isNone then
      Draft.mk d0.patient d0.symptoms d0.date d0.time d0.hospital_id (some recipient)
    else d0
  let d2 := match detPatient speech with
    | some n => Draft.mk (some n) d1.symptoms d1.date d1.time d1.hospital_id d1.phone
    | none => d1
  let d3 := match firstCapture hospitalPatterns low with
    | some c =>
      Draft.mk d2.patient d2.symptoms d2.date d2.time
        (some (Int.ofNat (digitsToNat (strip c)))) d2.phone
    | none => d2
  let d4 := match firstCapture datePatterns low with
    | some c => Draft.mk d3.patient d3.symptoms (some (strip c)) d3.time d3.hospital_id d3.phone
    | none => d3
  let d5 := match firstCapture timePatterns low with
    | some c => Draft.mk d4.patient d4.symptoms d4.date (some (strip c)) d4.hospital_id d4.phone
    | none => d4
  let symCap := if symptomTriggers.any (fun m => isSubstr m low) then
      firstCapture symptomPatterns low
    else none
  let d6 := match symCap with
    | some c => Draft.mk d5.patient (some (strip c)) d5.date d5.time d5.hospital_id d5.phone
    | none => d5
  let d7 := if symCap.isNone && d6.patient.isSome && d6.hospital_id.isSome &&
      d6.date.isSome && d6.time.isSome then residualStep d6 low else d6
  mergeLLM d7 u

/- ## Dual-response cross-validation
(src/services/llm/__init__.py, `extract_appointment_data`, lines 107-132) -/

/-- A JSON value as relevant to the per-field reconciliation: null, a
string, or a number. -/
inductive JVal where
  | null : JVal
  | s : List Char → JVal
  | n : Int → JVal
deriving DecidableEq, Repr

/-- Normalisation the source applies to the first parsed response: a field
absent from the dictionary, or equal to the empty string, becomes null. -/
def normalizeFirst (raw : Option JVal) : JVal :=
  match raw with
  | none => JVal.null
  | some v => if v = JVal.s [] then JVal.null else v

/-- Per-field combination of the (normalised) first response value with the
second response (`none` models a field absent from the second response, or
a second response that failed to parse): keep the first value unless it is
null and the second is a present non-null value. -/
def combineField (v1 : JVal) (v2 : Option JVal) : JVal :=
  match v2 with
  | none => v1
  | some w =>
    if w = v1 then v1
    else if (¬ w = JVal.null) ∧ v1 = JVal.null then w
    else v1

/-- Field value resulting from the two parsed model responses: first
response normalised, then cross-validated against the second. -/
def fieldResult (raw1 raw2 : Option JVal) : JVal :=
  combineField (normalizeFirst raw1) raw2

/-- The rule exactly as the specification words it: agreement wins, a single
non-null value wins, conflicting non-null values fall to the first
response. -/
def specFieldResult (j1 j2 : JVal) : JVal :=
  if j1 = j2 then j1
  else if j1 = JVal.null then j2
  else if j2 = JVal.null then j1
  else j1

/-- The patient-merge rule exactly as the claim words it: reject the
literal texts "null" and "None"; otherwise replace exactly when the draft
has no patient yet (missing, empty, or the placeholder "null") or the
candidate is strictly longer. -/
def claimPatientMerge (cur cand : Option (List Char)) : Option (List Char) :=
  match cand with
  | none => cur
  | some v =>
    if v = tl "null" ∨ v = tl "None" then cur
    else if cur = none ∨ cur = some [] ∨ cur = some (tl "null") ∨
        (cur.getD []).length < v.length then some v
    else cur

/-- The patient-merge rule with the amendment the code forces: the empty
string and the literal text "NULL" are also rejected. -/
def claimPatientMergeA (cur cand : Option (List Char)) : Option (List Char) :=
  match cand with
  | none => cur
  | some v =>
    if v = [] ∨ v = tl "null" ∨ v = tl "NULL" ∨ v = tl "None" then cur
    else if cur = none ∨ cur = some [] ∨ cur = some (tl "null") ∨
        (cur.getD []).length < v.length then some v
    else cur

/- ## The database service (src/services/database/__init__.py) -/

/-- A calendar date as produced by date parsing (the store compares parsed
dates). -/
structure DateV where
  y : Nat
  m : Nat
  d : Nat
deriving DecidableEq, Repr

/-- A stored appointment row as relevant to the availability query. -/
structure Appt where
  hospitalId : Int
  date : DateV
  time : List Char
deriving DecidableEq, Repr

/-- The store.  `none` for a table models a query that raises (connection
or SQL failure); `some rows` is a successful query over those rows. -/
structure Db where
  hospitals : Option (List (Int × List Char))
  appts : Option (List Appt)

/-- Number of stored appointments with the given hospital id, date and
time (the COUNT query of `check_appointment_availability`). -/
def countMatching (rows : List Appt) (hid : Int) (dv : DateV) (t : List Char) : Nat :=
  (rows.filter (fun a => decide (a.hospitalId = hid ∧ a.date = dv ∧ a.time = t))).length

/-- `DatabaseService.check_hospital_exists`: `(found, name)`, with
`(false, none)` both when the id is absent and when the query raises. -/
def check_hospital_exists (hospitals : Option (List (Int × List Char))) (hid : Int) :
    Bool × Option (List Char) :=
  match hospitals with
  | none => (false, none)
  | some hs =>
    match hs.find? (fun h => decide (h.1 = hid)) with
    | some h => (true, some h.2)
    | none => (false, none)

/-- `DatabaseService.check_appointment_availability`: parse the date, count
matching appointments and compare with the capacity threshold 3; any
exception inside the query (failed store, unparsable date) yields `false`. -/
def check_appointment_availability (appts : Option (List Appt))
    (P : List Char → Option DateV) (hid : Int) (dstr t : List Char) : Bool :=
  match appts with
  | none => false
  | some rows =>
    match P dstr with
    | none => false
    | some dv => decide (countMatching rows hid dv t < 3)

/- ## The dialogue state machine (src/api/routes.py, lines 306-377) -/

/-- Python truthiness of an optional string draft field: missing or empty
counts as missing. -/
def strFalsy : Option (List Char) → Bool
  | none => true
  | some s => s.isEmpty

/-- Python truthiness of the optional integer hospital id: missing or zero
counts as missing. -/
def idFalsy : Option Int → Bool
  | none => true
  | some v => decide (v = 0)

/-- The five required fields, in the order the source checks them. -/
inductive ReqField where
  | patient | symptoms | date | time | hospital_id
deriving DecidableEq, Repr

/-- The required-field list of the source. -/
def requiredFields : List ReqField :=
  [ReqField.patient, ReqField.symptoms, ReqField.date, ReqField.time, ReqField.hospital_id]

/-- Is the given required field missing from (or falsy in) the draft? -/
def fieldFalsy (d : Draft) : ReqField → Bool
  | ReqField.patient => strFalsy d.patient
  | ReqField.symptoms => strFalsy d.symptoms
  | ReqField.date => strFalsy d.date
  | ReqField.time => strFalsy d.time
  | ReqField.hospital_id => idFalsy d.hospital_id

/-- `missing_fields` of the source: required fields absent or falsy. -/
def missingFields (d : Draft) : List ReqField :=
  requiredFields.filter (fun f => fieldFalsy d f)

/-- The literal dictionary key of a required field. -/
def fieldNameText : ReqField → List Char
  | ReqField.patient => tl "patient"
  | ReqField.symptoms => tl "symptoms"
  | ReqField.date => tl "date"
  | ReqField.time => tl "time"
  | ReqField.hospital_id => tl "hospital_id"

/-- The fixed per-field follow-up prompt used when exactly one field is
missing. -/
def fieldPrompt : ReqField → List Char
  | ReqField.patient =>
    tl "I still need your full name. Please clearly say: My name is followed by your full name."
  | ReqField.hospital_id =>
    tl "I need the hospital ID number. Please clearly say: Hospital ID followed by a number between 1 and 10."
  | ReqField.symptoms =>
    tl "I need to know why you" ++ apos ::
    tl "re booking this appointment. Please clearly say: My symptoms are, followed by your health concern."
  | ReqField.date =>
    tl "I need the date for your appointment. Please clearly say: The date is, followed by a date like 2023-06-15."
  | ReqField.time =>
    tl "I need the time for your appointment. Please clearly say: The time is, followed by a time like 10:00 AM."

/-- The templated message used when several fields are missing. -/
def multiMsg (fs : List ReqField) : List Char :=
  match fs.reverse with
  | [] => []
  | lastF :: restRev =>
    tl "I still need your " ++ joinCommaSpace (restRev.reverse.map fieldNameText) ++
    tl " and " ++ fieldNameText lastF ++ tl ". Please provide this information."

/-- The follow-up message: fixed prompt for a single missing field,
templated list otherwise. -/
def followUpMsg (fs : List ReqField) : List Char :=
  match fs with
  | [f] => fieldPrompt f
  | _ => multiMsg fs

/-- Text of the unknown-hospital re-prompt before the interpolated id. -/
def hospMsgPre : List Char := tl "I" ++ apos :: tl "m sorry, the hospital with ID "

/-- Text of the unknown-hospital re-prompt after the interpolated id. -/
def hospMsgPost : List Char :=
  tl " doesn" ++ apos ::
  tl "t exist in our system. Please say a different hospital ID between 1 and 10."

/-- The re-prompt emitted when the hospital id has no record. -/
def hospMsg (hid : Int) : List Char := hospMsgPre ++ (intRepr hid ++ hospMsgPost)

/-- The re-prompt emitted when the requested slot is fully booked. -/
def timeMsg (t dstr : List Char) : List Char :=
  tl "I" ++ apos :: tl "m sorry, but the time slot at " ++ t ++ tl " on " ++ dstr ++
  tl " is fully booked. Please suggest a different time."

/-- The hospital id the validation stage passes to the store. -/
def idOf (d : Draft) : Int := d.hospital_id.getD 0

/-- Drop the `time` key from the draft. -/
def setTimeNone (d : Draft) : Draft :=
  Draft.mk d.patient d.symptoms d.date none d.hospital_id d.phone

/-- Drop the `hospital_id` key from the draft. -/
def setHospitalNone (d : Draft) : Draft :=
  Draft.mk d.patient d.symptoms d.date d.time none d.phone

/-- Reply of the system for one turn once the draft is updated. -/
inductive Outcome where
  | followUp : List Char → Outcome
  | hospitalRetry : List Char → Outcome
  | timeRetry : List Char → Outcome
  | confirmRequest : Outcome
deriving DecidableEq, Repr

/-- Is the outcome the missing-fields follow-up? -/
def isMissingPrompt : Outcome → Bool
  | Outcome.followUp _ => true
  | _ => false

/-- The validation stage of a turn with a complete draft (src/api/routes.py,
lines 312-353): hospital existence, then slot availability, then the
confirmation request (which sets the confirmation flag). -/
def validateStage (db : Db) (P : List Char → Option DateV) (d : Draft) :
    Draft × Bool × Outcome :=
  let hid := idOf d
  let he := check_hospital_exists db.hospitals hid
  if he.1 then
    if check_appointment_availability db.appts P hid (d.date.getD []) (d.time.getD [])
    then (d, true, Outcome.confirmRequest)
    else (setTimeNone d, false, Outcome.timeRetry (timeMsg (d.time.getD []) (d.date.getD [])))
  else (setHospitalNone d, false, Outcome.hospitalRetry (hospMsg hid))

/-- The dialogue step after extraction and reconciliation
(src/api/routes.py, lines 306-377): validate when nothing is missing,
otherwise emit the targeted follow-up. -/
def dialogueStep (db : Db) (P : List Char → Option DateV) (d : Draft) :
    Draft × Bool × Outcome :=
  if (missingFields d).isEmpty then validateStage db P d
  else (d, false, Outcome.followUp (followUpMsg (missingFields d)))

/- ## The call session registry (src/api/routes.py, `call_status`) -/

/-- Process-wide session state: per call id, the conversation history, the
appointment draft and the confirmation flag (`none` models an absent key). -/
structure SessionState where
  history : List Char → Option (List (List Char))
  draftOf : List Char → Option Draft
  confirmOf : List Char → Option Bool

/-- The call-status values that trigger session cleanup. -/
def terminalStatuses : List (List Char) :=
  [tl "completed", tl "failed", tl "busy", tl "no-answer", tl "canceled"]

/-- The call-status webhook (src/api/routes.py, lines 506-527): on a
terminal status all three pieces of state for the call id are removed;
any other status leaves the state untouched. -/
def call_status_step (st : SessionState) (cid status : List Char) : SessionState :=
  if status ∈ terminalStatuses then
    SessionState.mk (fun c => if c = cid then none else st.history c)
      (fun c => if c = cid then none else st.draftOf c)
      (fun c => if c = cid then none else st.confirmOf c)
  else st

/- ## The confirmation stage (src/api/routes.py, `confirm_appointment`) -/

/-- Response of the system in the confirmation stage. -/
inductive ConfOutcome where
  | booked : Nat → ConfOutcome
  | failureApology : ConfOutcome
  | askChanges : ConfOutcome
  | cancelled : ConfOutcome
  | askAgain : ConfOutcome
deriving DecidableEq, Repr

/-- The confirmation webhook (src/api/routes.py, lines 419-496) acting on
the draft and confirmation flag of the session.  `rtype` is the classification
of the utterance; `persist` is the result of
`DatabaseService.create_appointment` (`none` both when the insert returns
no id and when it raises, since the service catches every exception). -/
def confirm_appointment_step (draftS : Option Draft) (flagS : Option Bool)
    (rtype : List Char) (persist : Option Nat) :
    Option Draft × Option Bool × ConfOutcome :=
  if rtype = tl "confirm" then
    match persist with
    | some aid => (none, none, ConfOutcome.booked aid)
    | none => (draftS, flagS, ConfOutcome.failureApology)
  else if rtype = tl "correct" then (draftS, none, ConfOutcome.askChanges)
  else if rtype = tl "cancel" then (none, none, ConfOutcome.cancelled)
  else (draftS, flagS, ConfOutcome.askAgain)

/- ## Concrete inputs used by counterexamples and witnesses -/

/-- A draft that already holds a date, used against claim C1. -/
def cexDraftC1 : Draft :=
  Draft.mk none none (some (tl "2023-01-01")) none none (some (tl "+19995550101"))

/-- A complete draft (all five required fields truthy), hospital id 5. -/
def witDraftFull : Draft :=
  Draft.mk (some (tl "John Smith")) (some (tl "headache")) (some (tl "2023-06-15"))
    (some (tl "10:00 am")) (some 5) (some (tl "+19995550101"))

/-- A model-assisted result suggesting a different value for every field. -/
def witLLM : LLMOut :=
  LLMOut.mk (some (tl "J")) (some (tl "fever")) (some (tl "2024-01-01"))
    (some (tl "11:00 am")) (some 7)

/-- A date parser recognising exactly the witness date. -/
def witParse : List Char → Option DateV :=
  fun s => if s = tl "2023-06-15" then some (DateV.mk 2023 6 15) else none

/-- A store whose hospital table lacks id 5. -/
def witDbNoHosp : Db := Db.mk (some [(3, tl "City General")]) (some [])

/-- Three bookings in the witness slot at hospital 5. -/
def witRows3 : List Appt :=
  [Appt.mk 5 (DateV.mk 2023 6 15) (tl "10:00 am"),
   Appt.mk 5 (DateV.mk 2023 6 15) (tl "10:00 am"),
   Appt.mk 5 (DateV.mk 2023 6 15) (tl "10:00 am")]

/-- A store with hospital 5 and a fully booked witness slot. -/
def witDbFull : Db := Db.mk (some [(5, tl "City General")]) (some witRows3)

/-- A store with hospital 5 whose appointment query raises. -/
def witDbBroken : Db := Db.mk (some [(5, tl "City General")]) none

/-- A registry holding history, draft and confirmation flag for one call. -/
def witSession : SessionState :=
  SessionState.mk (fun c => if c = tl "CA123" then some [tl "hello"] else none)
    (fun c => if c = tl "CA123" then some cexDraftC1 else none)
    (fun c => if c = tl "CA123" then some true else none)

/- ## Helper lemmas -/

/-- Substring containment is preserved by extending the text on the left
by one character. -/
theorem isSubstr_tail (n : List Char) (c : Char) (rest : List Char)
    (h : isSubstr n rest = true) : isSubstr n (c :: rest) = true := by
  simp only [isSubstr, decide_eq_true_eq]
  exact Or.inr h

/-- Substring containment is preserved by prepending arbitrary text. -/
theorem isSubstr_append (n a b : List Char) (h : isSubstr n b = true) :
    isSubstr n (a ++ b) = true := by
  induction a with
  | nil => simpa using h
  | cons c a2 ih => simpa using isSubstr_tail n c (a2 ++ b) ih

/-- The merge rule for symptoms/date/time keeps a truthy current value. -/
theorem mergeOther_keep (cur cand : Option (List Char))
    (h : strFalsy cur = false) : mergeOther cur cand = cur := by
  cases cur with
  | none => simp [strFalsy] at h
  | some c =>
    simp only [strFalsy] at h
    cases cand with
    | none => rfl
    | some v =>
      by_cases hv : v.isEmpty = true
      · simp [mergeOther, hv]
      · simp [mergeOther, hv, h]

/-- The merge rule for the hospital id keeps a truthy current value. -/
theorem mergeId_keep (cur cand : Option Int)
    (h : idFalsy cur = false) : mergeId cur cand = cur := by
  cases cur with
  | none => simp [idFalsy] at h
  | some c =>
    have h2 : ¬ c = 0 := by simpa [idFalsy] using h
    cases cand with
    | none => rfl
    | some v => simp [mergeId, h2]

/-- If the first template that matches yields a capture whose cleaned word
list is non-empty, the template chain produces exactly that cleaned,
title-cased name. -/
theorem firstCapture_with_clean (ps : List RE) (low c : List Char)
    (h : firstCapture ps low = some c)
    (hne : (cleanName (strip c)).isEmpty = false) :
    firstSome (ps.map (fun p => (reSearch p low).bind templateName)) =
      some (titleAscii (joinSpace (cleanName (strip c)))) := by
  induction ps with
  | nil => simp [firstCapture, firstSome] at h
  | cons p ps ih =>
    cases hp : reSearch p low with
    | some c0 =>
      have hc : c0 = c := by
        simp [firstCapture, List.map, firstSome, hp] at h
        exact h
      subst hc
      have hne2 : ¬ cleanName (strip c0) = [] := by
        simpa [List.isEmpty_iff] using hne
      simp [List.map, firstSome, hp, templateName, hne2]
    | none =>
      have h2 : firstCapture ps low = some c := by
        simpa [firstCapture, List.map, firstSome, hp] using h
      simpa [List.map, firstSome, hp] using ih h2

/- ## Claim C1 -/

/-- Claim C1 counterexample: a draft already holding the non-empty date
"2023-01-01" is processed on the turn "date is 2023-06-15" (with an empty
model-assisted result); the deterministic date capture overwrites the
existing value, so the turn does not leave the non-empty field unchanged. -/
theorem c1_counterexample :
    strFalsy cexDraftC1.date = false
    ∧ (processTurn cexDraftC1 (tl "date is 2023-06-15") (tl "+19995550101")
        emptyLLM).date = some (tl "2023-06-15")
    ∧ decide ((processTurn cexDraftC1 (tl "date is 2023-06-15") (tl "+19995550101")
        emptyLLM).date = cexDraftC1.date) = false := by
  decide

/-- Claim C1 (amended): the model-assisted merge never overwrites a truthy
value of symptoms, date, time or hospital_id; the invariant holds for the
merge step, not for the deterministic extraction that precedes it. -/
theorem c1_merge_preserves_nonempty (d : Draft) (u : LLMOut) :
    (strFalsy d.symptoms = false → (mergeLLM d u).symptoms = d.symptoms)
    ∧ (strFalsy d.date = false → (mergeLLM d u).date = d.date)
    ∧ (strFalsy d.time = false → (mergeLLM d u).time = d.time)
    ∧ (idFalsy d.hospital_id = false → (mergeLLM d u).hospital_id = d.hospital_id) := by
  refine ⟨fun h => ?_, fun h => ?_, fun h => ?_, fun h => ?_⟩
  · exact mergeOther_keep d.symptoms u.symptoms h
  · exact mergeOther_keep d.date u.date h
  · exact mergeOther_keep d.time u.time h
  · exact mergeId_keep d.hospital_id u.hospital_id h

/-- Claim C1 witness: a complete draft merged with a model result that
suggests a different value for every field keeps all four fields. -/
theorem c1_witness :
    (strFalsy witDraftFull.symptoms = false ∧ strFalsy witDraftFull.date = false
      ∧ strFalsy witDraftFull.time = false ∧ idFalsy witDraftFull.hospital_id = false)
    ∧ (mergeLLM witDraftFull witLLM).symptoms = witDraftFull.symptoms
    ∧ (mergeLLM witDraftFull witLLM).date = witDraftFull.date
    ∧ (mergeLLM witDraftFull witLLM).time = witDraftFull.time
    ∧ (mergeLLM witDraftFull witLLM).hospital_id = witDraftFull.hospital_id := by
  have h := c1_merge_preserves_nonempty witDraftFull witLLM
  exact ⟨⟨by decide, by decide, by decide, by decide⟩,
    h.1 (by decide), h.2.1 (by decide), h.2.2.1 (by decide), h.2.2.2 (by decide)⟩

/- ## Claim C2 -/

/-- Claim C2 counterexample: the candidate "NULL" is neither the literal
text "null" nor "None", and the draft has no patient, so the claim as
stated requires the candidate to be accepted; the code rejects it. -/
theorem c2_counterexample :
    claimPatientMerge none (some (tl "NULL")) = some (tl "NULL")
    ∧ mergePatient none (some (tl "NULL")) = none
    ∧ decide ((tl "NULL") = tl "null" ∨ (tl "NULL") = tl "None") = false := by
  decide

/-- Claim C2 (amended): the patient-merge rule of the code coincides with
the claimed rule once the rejected placeholder set also contains "NULL"
and the empty string. -/
theorem c2_patient_merge_rule (cur cand : Option (List Char)) :
    mergePatient cur cand = claimPatientMergeA cur cand := by
  cases cand with
  | none => rfl
  | some v =>
    simp only [mergePatient, claimPatientMergeA]
    by_cases h1 : v = [] <;> by_cases h2 : v = tl "null" <;>
      by_cases h3 : v = tl "NULL" <;> by_cases h4 : v = tl "None" <;>
      cases cur <;> simp_all [List.isEmpty_iff]

/- ## Claim C3 -/

/-- Claim C3 counterexample: the first response carries the (non-null)
empty string and the second carries "John"; the claim as stated demands
first-response precedence, but the code normalises the empty string of the
first response to null and accepts the value of the second response. -/
theorem c3_counterexample :
    fieldResult (some (JVal.s [])) (some (JVal.s (tl "John"))) = JVal.s (tl "John")
    ∧ specFieldResult (JVal.s []) (JVal.s (tl "John")) = JVal.s []
    ∧ decide (fieldResult (some (JVal.s [])) (some (JVal.s (tl "John"))) =
        specFieldResult (JVal.s []) (JVal.s (tl "John"))) = false := by
  decide

/-- Claim C3 (amended): after normalising the first response (absent field
or empty string becomes null) and reading an absent field of the second
response as null, the per-field result is exactly the claimed rule:
agreement wins, a single non-null value wins, and conflicting non-null
values fall to the first response. -/
theorem c3_cross_validated_field (raw1 raw2 : Option JVal) :
    fieldResult raw1 raw2 =
      specFieldResult (normalizeFirst raw1) (raw2.getD JVal.null) := by
  cases raw2 with
  | none =>
    simp only [fieldResult, combineField, Option.getD]
    by_cases h : normalizeFirst raw1 = JVal.null <;> simp [specFieldResult, h]
  | some w =>
    simp only [fieldResult, combineField, Option.getD]
    by_cases h1 : w = normalizeFirst raw1
    · simp [h1, specFieldResult]
    · by_cases h2 : normalizeFirst raw1 = JVal.null
      · by_cases h3 : w = JVal.null
        · exact absurd (h3.trans h2.symm) h1
        · have h1x : ¬ normalizeFirst raw1 = w := fun hx => h1 hx.symm
          have h3x : ¬ JVal.null = w := fun hx => h3 hx.symm
          simp [h1, h2, h3, h1x, h3x, specFieldResult]
      · have h1x : ¬ normalizeFirst raw1 = w := fun hx => h1 hx.symm
        by_cases h3 : w = JVal.null <;> simp [h1, h2, h3, h1x, specFieldResult]

/- ## Claim C4 -/

/-- Claim C4: with a complete draft whose hospital id has no matching
record, the turn drops only `hospital_id`, does not set the confirmation
flag, and replies with the re-prompt whose text asks for a replacement id
between 1 and 10. -/
theorem c4_unknown_hospital (db : Db) (P : List Char → Option DateV) (d : Draft)
    (hs : List (Int × List Char)) (hm : missingFields d = [])
    (hh : db.hospitals = some hs)
    (hf : hs.find? (fun h => decide (h.1 = idOf d)) = none) :
    dialogueStep db P d =
      (setHospitalNone d, false, Outcome.hospitalRetry (hospMsg (idOf d)))
    ∧ (setHospitalNone d).patient = d.patient
    ∧ (setHospitalNone d).symptoms = d.symptoms
    ∧ (setHospitalNone d).date = d.date
    ∧ (setHospitalNone d).time = d.time
    ∧ (setHospitalNone d).phone = d.phone
    ∧ (setHospitalNone d).hospital_id = none
    ∧ isSubstr (tl "between 1 and 10") (hospMsg (idOf d)) = true := by
  refine ⟨?_, rfl, rfl, rfl, rfl, rfl, rfl, ?_⟩
  · simp [dialogueStep, hm, validateStage, check_hospital_exists, hh, hf]
  · unfold hospMsg
    exact isSubstr_append _ _ _ (isSubstr_append _ _ _ (by decide))

/-- Claim C4 witness: the complete witness draft with hospital id 5
against a store containing only hospital 3. -/
theorem c4_witness :
    dialogueStep witDbNoHosp witParse witDraftFull =
      (setHospitalNone witDraftFull, false, Outcome.hospitalRetry (hospMsg 5))
    ∧ isSubstr (tl "between 1 and 10") (hospMsg 5) = true := by
  have h := c4_unknown_hospital witDbNoHosp witParse witDraftFull
    [(3, tl "City General")] (by decide) rfl (by decide)
  exact ⟨h.1, h.2.2.2.2.2.2.2⟩

/- ## Claim C5 -/

/-- Claim C5: the availability check with a responding store returns true
exactly when fewer than 3 appointments share the hospital id, parsed date
and time; with exactly 3 it returns false, and the turn handler then drops
`time` and asks for an alternate time. -/
theorem c5_capacity_threshold (rows : List Appt) (P : List Char → Option DateV)
    (hid : Int) (dstr t : List Char) (dv : DateV) (db : Db) (d : Draft)
    (hp : P dstr = some dv) :
    (check_appointment_availability (some rows) P hid dstr t =
      decide (countMatching rows hid dv t < 3))
    ∧ (countMatching rows hid dv t = 3 →
        check_appointment_availability (some rows) P hid dstr t = false)
    ∧ (db.appts = some rows → missingFields d = [] → d.hospital_id = some hid →
        d.date = some dstr → d.time = some t →
        (check_hospital_exists db.hospitals hid).1 = true →
        countMatching rows hid dv t = 3 →
        dialogueStep db P d =
          (setTimeNone d, false, Outcome.timeRetry (timeMsg t dstr))) := by
  refine ⟨?_, ?_, ?_⟩
  · simp [check_appointment_availability, hp]
  · intro h3
    simp [check_appointment_availability, hp, h3]
  · intro ha hm hhid hdate htime hex h3
    have hidof : idOf d = hid := by simp [idOf, hhid]
    simp [dialogueStep, hm, validateStage, hidof, ha, hdate, htime,
      check_appointment_availability, hp, h3, hex]

/-- Claim C5 witness: three bookings in the slot of the witness draft at
hospital 5 make the check return false and the turn drop the time. -/
theorem c5_witness :
    check_appointment_availability (some witRows3) witParse 5 (tl "2023-06-15")
      (tl "10:00 am") = false
    ∧ dialogueStep witDbFull witParse witDraftFull =
        (setTimeNone witDraftFull, false,
          Outcome.timeRetry (timeMsg (tl "10:00 am") (tl "2023-06-15"))) := by
  have h := c5_capacity_threshold witRows3 witParse 5 (tl "2023-06-15")
    (tl "10:00 am") (DateV.mk 2023 6 15) witDbFull witDraftFull (by decide)
  exact ⟨h.2.1 (by decide),
    h.2.2 rfl (by decide) rfl rfl rfl (by decide) (by decide)⟩

/- ## Claim C7 -/

/-- Claim C7: after reconciliation the turn dispatches on the missing
fields: none missing goes straight to the validation stage (which never
emits the missing-fields follow-up), exactly one missing yields the fixed
per-field prompt, several missing yield the templated list. -/
theorem c7_missing_fields_dispatch (db : Db) (P : List Char → Option DateV)
    (d : Draft) :
    (dialogueStep db P d =
      match missingFields d with
      | [] => validateStage db P d
      | [f] => (d, false, Outcome.followUp (fieldPrompt f))
      | fs => (d, false, Outcome.followUp (multiMsg fs)))
    ∧ isMissingPrompt (validateStage db P d).2.2 = false := by
  constructor
  · cases hm : missingFields d with
    | nil => simp [dialogueStep, hm]
    | cons f fs =>
      cases fs with
      | nil => simp [dialogueStep, hm, followUpMsg]
      | cons g gs => simp [dialogueStep, hm, followUpMsg]
  · simp only [validateStage]
    split
    · split <;> simp [isMissingPrompt]
    · simp [isMissingPrompt]

/- ## Claim C8 -/

/-- Claim C8: a terminal call status removes the conversation history, the
draft and the confirmation flag of the call, and a second delivery of the
same terminal status is a no-op. -/
theorem c8_end_idempotent (st : SessionState) (cid status : List Char)
    (h : status ∈ terminalStatuses) :
    ((call_status_step st cid status).history cid = none
      ∧ (call_status_step st cid status).draftOf cid = none
      ∧ (call_status_step st cid status).confirmOf cid = none)
    ∧ call_status_step (call_status_step st cid status) cid status =
        call_status_step st cid status := by
  constructor
  · simp [call_status_step, h]
  · simp only [call_status_step, if_pos h]
    congr 1 <;> funext c <;> by_cases hc : c = cid <;> simp [hc]

/-- Claim C8 witness: ending call "CA123" with status "completed" clears
its three pieces of state, and ending it again changes nothing. -/
theorem c8_witness :
    ((call_status_step witSession (tl "CA123") (tl "completed")).history
        (tl "CA123") = none
      ∧ (call_status_step witSession (tl "CA123") (tl "completed")).draftOf
        (tl "CA123") = none
      ∧ (call_status_step witSession (tl "CA123") (tl "completed")).confirmOf
        (tl "CA123") = none)
    ∧ call_status_step (call_status_step witSession (tl "CA123") (tl "completed"))
        (tl "CA123") (tl "completed") =
      call_status_step witSession (tl "CA123") (tl "completed") :=
  c8_end_idempotent witSession (tl "CA123") (tl "completed") (by decide)

/- ## Claim C9 -/

/-- Claim C9: a failing store query makes the availability check report
the slot unavailable instead of raising, so during validation the draft
drops its time and the caller is re-prompted for an alternate time. -/
theorem c9_store_failure_unavailable (P : List Char → Option DateV) (hid : Int)
    (dstr t : List Char) (db : Db) (d : Draft) :
    check_appointment_availability none P hid dstr t = false
    ∧ (db.appts = none → missingFields d = [] →
        (check_hospital_exists db.hospitals (idOf d)).1 = true →
        dialogueStep db P d = (setTimeNone d, false,
          Outcome.timeRetry (timeMsg (d.time.getD []) (d.date.getD [])))) := by
  refine ⟨rfl, fun ha hm hex => ?_⟩
  simp [dialogueStep, hm, validateStage, hex, ha, check_appointment_availability]

/-- Claim C9 witness: hospital 5 exists but the appointment query raises;
the complete witness draft drops its time and gets the alternate-time
re-prompt. -/
theorem c9_witness :
    check_appointment_availability none witParse 5 (tl "2023-06-15")
      (tl "10:00 am") = false
    ∧ dialogueStep witDbBroken witParse witDraftFull =
        (setTimeNone witDraftFull, false,
          Outcome.timeRetry (timeMsg (tl "10:00 am") (tl "2023-06-15"))) := by
  have h := c9_store_failure_unavailable witParse 5 (tl "2023-06-15")
    (tl "10:00 am") witDbBroken witDraftFull
  exact ⟨h.1, h.2 rfl (by decide) (by decide)⟩

/- ## Claim C10 -/

/-- Claim C10: when the utterance is classified as confirm but persistence
yields no appointment id (the insert returned nothing or raised), the
draft and confirmation flag of the session are left exactly as they were and
the caller receives the failure apology. -/
theorem c10_failed_persist_keeps_session (draftS : Option Draft)
    (flagS : Option Bool) :
    confirm_appointment_step draftS flagS (tl "confirm") none =
      (draftS, flagS, ConfOutcome.failureApology) := rfl

/- ## Claim C6 -/

/-- Claim C6 counterexample: on "my name is calling" the first name
template matches with captured span "calling", whose cleaned, title-cased
remainder is empty; the extracted name is not that remainder — the
template produces nothing and the short-utterance fallback yields
"My Name Is Calling" instead. -/
theorem c6_counterexample :
    firstTemplateCapture (lowerAscii (tl "my name is calling")) = some (tl "calling")
    ∧ titleAscii (joinSpace (cleanName (strip (tl "calling")))) = []
    ∧ detPatient (tl "my name is calling") = some (tl "My Name Is Calling")
    ∧ decide (detPatient (tl "my name is calling") =
        some (titleAscii (joinSpace (cleanName (strip (tl "calling")))))) = false := by
  decide

/-- Claim C6 (amended): whenever the captured span of the first matching
name template keeps at least one word after stop-word cleaning, the
extracted patient name is exactly that cleaned span title-cased. -/
theorem c6_name_cleaning (s c : List Char)
    (h : firstTemplateCapture (lowerAscii s) = some c)
    (hne : (cleanName (strip c)).isEmpty = false) :
    detPatient s = some (titleAscii (joinSpace (cleanName (strip c)))) := by
  have hx : extractNameTemplates (lowerAscii s) =
      some (titleAscii (joinSpace (cleanName (strip c)))) :=
    firstCapture_with_clean namePatterns (lowerAscii s) c h hne
  simp [detPatient, hx]

/-- Claim C6 witness: "my name is john calling" is captured as
"john calling", cleaned of the stop word "calling" and title-cased to
"John". -/
theorem c6_witness : detPatient (tl "my name is john calling") = some (tl "John") :=
  (c6_name_cleaning (tl "my name is john calling") (tl "john calling")
    (by decide) (by decide)).trans (by decide)
